import Mathlib

/-!
Verification of the arrebol-pb-worker task lifecycle engine.

This file gives a shallow embedding of the worker agent of the
arrebol-pb-worker repository and proves properties of it.  The embedded
functions are translated from the Go sources:

- src/worker/worker.go : the Worker record, the Task record, the
  HandleJoinResponse join handler, ExecTask, reportTask and reportReq.
- src/utils/http_utils.go : the TaskExecutor (Execute, init, send, run,
  Track, getExitCodes, toIntArray, isNotUTFNumber) and the HTTP helpers.

Conventions of the embedding:

- A Go function that can hit a runtime panic (integer division by zero,
  nil pointer dereference, out of range index) is modelled with an
  Option result where none stands for the panic.
- A Go call `log.Fatal` terminates the whole agent process; it is
  modelled by a dedicated constructor or by none, as documented at each
  definition.
- Go `(value, error)` pairs are modelled with Except or with an explicit
  pair, as documented at each definition.
- External effects (the container driver, the HTTP transport, the wall
  clock) enter the model as explicit arguments holding their outcomes,
  so every definition is a pure function of those outcomes.
-/

namespace ArrebolWorker

/-- Task states, from src/worker/worker.go (TaskPending, TaskRunning,
TaskFinished, TaskFailed). -/
inductive TaskState where
  | TaskPending
  | TaskRunning
  | TaskFinished
  | TaskFailed
deriving DecidableEq, Repr

/-- The Task record, from src/worker/worker.go.  ReportInterval is a Go
int64; Progress is a Go int, always assigned non-negative values by the
engine, so it is modelled as Nat. -/
structure Task where
  Commands : List String
  ReportInterval : Int
  State : TaskState
  Progress : Nat
  DockerImage : String
  Id : String
deriving DecidableEq, Repr

/-- The Worker record, from src/worker/worker.go.  Vcpu and Ram are Go
float32 configuration pass-through values never computed with by the
code under verification; they are modelled as integers. -/
structure Worker where
  Vcpu : Int
  Ram : Int
  Token : String
  Id : String
  QueueId : String
deriving DecidableEq, Repr

/-- The progress assignment of reportTask (src/worker/worker.go line 220):
`task.Progress = executedCmdsLen * 100 / len(task.Commands)`.
Go integer division truncates toward zero; both operands are
non-negative here, so Nat division coincides with it.  A zero divisor
panics at runtime in Go; that panic is modelled as none. -/
def progressUpdate (executedCmdsLen numCommands : Nat) : Option Nat :=
  if numCommands = 0 then none
  else some (executedCmdsLen * 100 / numCommands)

/-- The value flowing out of `executedCmdsLen, err := executor.Track()`
(src/worker/worker.go line 214): on error Track returns the pair (0, err),
so the count used by the subsequent assignment is 0. -/
def trackValue (trackRes : Except String Nat) : Nat :=
  match trackRes with
  | Except.ok n => n
  | Except.error _ => 0

/-- One progress-probing step of the default branch of reportTask
(src/worker/worker.go lines 213-222): Track is consulted, a Track error
is only logged, and `task.Progress` is unconditionally overwritten with
`executedCmdsLen * 100 / len(task.Commands)`.  none models the runtime
panic of the division when the command list is empty. -/
def trackedProgressUpdate (task : Task) (trackRes : Except String Nat) : Option Task :=
  match progressUpdate (trackValue trackRes) task.Commands.length with
  | none => none
  | some p => some { task with Progress := p }

/-- The container driver outcomes observed during one Execute call.  Each
field is the result of the corresponding utils call made by the executor
in src/utils/http_utils.go (CheckImage, Pull, CreateContainer,
StartContainer, Exec mkdir, Copy, Write, Exec of the run script). -/
structure ContainerDriver where
  checkImage : Except String Bool
  pull : Except String Unit
  createContainer : Except String String
  startContainer : Except String Unit
  execMkdir : Except String Unit
  copyScript : Except String Unit
  writeCommands : Except String Unit
  execRunScript : Except String Unit

/-- TaskExecutor.init from src/utils/http_utils.go lines 167-225: check
the image, pull it when absent, create and start the container, create
the /arrebol folder, copy the task-script-executor into it.  The first
failing step aborts with its error; on success the container id is
returned. -/
def executorInit (d : ContainerDriver) : Except String String :=
  match d.checkImage with
  | Except.error e => Except.error e
  | Except.ok imageExists =>
    match (if imageExists then Except.ok () else d.pull) with
    | Except.error e => Except.error e
    | Except.ok _ =>
      match d.createContainer with
      | Except.error e => Except.error e
      | Except.ok cid =>
        match d.startContainer with
        | Except.error e => Except.error e
        | Except.ok _ =>
          match d.execMkdir with
          | Except.error e => Except.error e
          | Except.ok _ =>
            match d.copyScript with
            | Except.error e => Except.error e
            | Except.ok _ => Except.ok cid

/-- TaskExecutor.send from src/utils/http_utils.go: writes the command
list into /arrebol/task-id.ts through utils.Write and returns its
error. -/
def executorSend (d : ContainerDriver) : Except String Unit :=
  d.writeCommands

/-- TaskExecutor.run from src/utils/http_utils.go: invokes the
task-script-executor through utils.Exec and returns its error. -/
def executorRun (d : ContainerDriver) : Except String Unit :=
  d.execRunScript

/-- TaskExecutor.Execute from src/utils/http_utils.go lines 135-165: runs
init, send and run in order; on the first failure it logs and emits
TaskFailed on the statesChanges channel, otherwise it tears the container
down (best effort) and emits TaskFinished.  The returned list is the
sequence of values emitted on the channel during the call. -/
def executorExecute (d : ContainerDriver) : List TaskState :=
  match executorInit d with
  | Except.error _ => [TaskState.TaskFailed]
  | Except.ok _ =>
    match executorSend d with
    | Except.error _ => [TaskState.TaskFailed]
    | Except.ok _ =>
      match executorRun d with
      | Except.error _ => [TaskState.TaskFailed]
      | Except.ok _ => [TaskState.TaskFinished]

/-- isNotUTFNumber from src/utils/http_utils.go lines 275-280: true
exactly on runes outside the ASCII digit range 48..57. -/
def isNotUTFNumber (r : Char) : Bool :=
  if 48 ≤ r.toNat ∧ r.toNat ≤ 57 then false else true

/-- bytes.TrimFunc: removes the leading and the trailing runs of
characters satisfying f.  The byte slice is modelled as a list of
characters. -/
def trimFunc (s : List Char) (f : Char → Bool) : List Char :=
  ((s.dropWhile f).reverse.dropWhile f).reverse

/-- strings.Split(content, CRLF): splits around each leftmost
non-overlapping occurrence of the two-character separator CR LF,
keeping empty segments, as Go does for a non-empty separator. -/
def splitOnCRLF : List Char → List (List Char)
  | [] => [[]]
  | '\r' :: '\n' :: rest => [] :: splitOnCRLF rest
  | c :: rest =>
    match splitOnCRLF rest with
    | [] => [[c]]
    | seg :: segs => (c :: seg) :: segs

/-- Go digit test used by the Atoi model. -/
def isDigitChar (c : Char) : Bool :=
  decide (48 ≤ c.toNat) && decide (c.toNat ≤ 57)

/-- Decimal value of a digit list, most significant digit first. -/
def digitsToNat (ds : List Char) : Nat :=
  ds.foldl (fun acc c => acc * 10 + (c.toNat - 48)) 0

/-- strconv.Atoi: an optional sign followed by one or more decimal
digits, whose value fits the 64-bit int range; anything else is an
error, modelled as none.  Go returns a clamped value together with a
range error on overflow; since every caller here discards the value when
the error is non-nil, overflow is modelled as none as well. -/
def atoiChars (s : List Char) : Option Int :=
  match s with
  | [] => none
  | c :: rest =>
    let signAndDigits : Bool × List Char :=
      if c = '-' then (true, rest)
      else if c = '+' then (false, rest)
      else (false, c :: rest)
    let neg := signAndDigits.1
    let ds := signAndDigits.2
    if ds = [] then none
    else if ds.all isDigitChar then
      let v : Int := if neg then -(digitsToNat ds : Int) else (digitsToNat ds : Int)
      if -(2 ^ 63) ≤ v ∧ v < 2 ^ 63 then some v else none
    else none

/-- The Go conversion int8(x): truncation to 8 bits, two's complement. -/
def toInt8 (x : Int) : Int :=
  let m := x % 256
  if m < 128 then m else m - 256

/-- toIntArray from src/utils/http_utils.go lines 264-273: parses each
segment with strconv.Atoi, silently skipping the segments that fail to
parse, and truncates each parsed value to int8. -/
def toIntArray (strs : List (List Char)) : List Int :=
  match strs with
  | [] => []
  | s :: rest =>
    match atoiChars s with
    | some x => toInt8 x :: toIntArray rest
    | none => toIntArray rest

/-- TaskExecutor.getExitCodes from src/utils/http_utils.go lines 249-262:
read the exit-code file (readResult holds the utils.Read outcome), trim
the non-digit characters from both ends, split on CRLF and parse the
segments.  A read error is propagated. -/
def getExitCodes (readResult : Except String (List Char)) : Except String (List Int) :=
  match readResult with
  | Except.error e => Except.error e
  | Except.ok dat =>
    let trimmed := trimFunc dat isNotUTFNumber
    let exitCodesStr := splitOnCRLF trimmed
    Except.ok (toIntArray exitCodesStr)

/-- TaskExecutor.Track from src/utils/http_utils.go lines 232-247: the
touch of the exit-code file is best effort (its error is only logged and
does not influence the result), then getExitCodes is consulted; on error
the pair (0, err) is returned, otherwise the count of parsed exit codes
with no error. -/
def Track (readResult : Except String (List Char)) : Nat × Option String :=
  match getExitCodes readResult with
  | Except.error e => (0, some e)
  | Except.ok ec => (ec.length, none)

/-- The count the specification ascribes to Track: the number of
CRLF-separated segments of the content, after trimming non-digit
characters from the ends, that parse as integers. -/
def trackCountSpec (content : List Char) : Nat :=
  (splitOnCRLF (trimFunc content isNotUTFNumber)).countP
    (fun seg => (atoiChars seg).isSome)

/-- A value found in the claim set of a parsed join token
(jwt.MapClaims).  The QueueId claim is numeric per the join contract. -/
inductive ClaimVal where
  | str (s : String)
  | num (n : Int)
deriving DecidableEq, Repr

/-- The Go formatting fmt.Sprintf of a claim value with the %v verb,
restricted to the modelled value shapes. -/
def goFormat : ClaimVal → String
  | ClaimVal.str s => s
  | ClaimVal.num n => toString n

/-- HandleJoinResponse from src/worker/worker.go lines 97-129.  Every
log.Fatal path (non-201 status, unparseable body, missing token,
token-parse failure, missing QueueId claim) terminates the agent before
the worker record is touched and is modelled as none.  parsedBody is the
outcome of unmarshalling the response body into a string map (none on
unmarshal error); parseTokenFn is the injectable ParseToken hook (none
models its error result).  On success the token and the formatted
QueueId claim are stored into the worker record. -/
def HandleJoinResponse (statusCode : Nat)
    (parsedBody : Option (List (String × String)))
    (parseTokenFn : String → Option (List (String × ClaimVal)))
    (w : Worker) : Option Worker :=
  if statusCode ≠ 201 then none
  else
    match parsedBody with
    | none => none
    | some body =>
      match body.lookup "arrebol-worker-token" with
      | none => none
      | some token =>
        match parseTokenFn token with
        | none => none
        | some claims =>
          match claims.lookup "QueueId" with
          | none => none
          | some queueId =>
            some { w with Token := token, QueueId := goFormat queueId }

/-- The outcome of ExecTask after Execute returns
(src/worker/worker.go lines 189-197).  fatalExit models the log.Fatal
call on a non-nil Execute error, which terminates the whole agent
process; completed models the non-error path, which signals the ending
channel and blocks on the wait channel until the reporter is done. -/
inductive ExecTaskOutcome where
  | fatalExit (msg : String)
  | completed
deriving DecidableEq, Repr

/-- The control flow of ExecTask after `err := taskExecutor.Execute(...)`
(src/worker/worker.go lines 189-196): a non-nil error is passed to
log.Fatal, otherwise ExecTask signals endingChannel and waits. -/
def execTaskAfterExecute (executeErr : Option String) : ExecTaskOutcome :=
  match executeErr with
  | some msg => ExecTaskOutcome.fatalExit msg
  | none => ExecTaskOutcome.completed

/-- The three channels created by ExecTask
(src/worker/worker.go lines 175-184): endingChannel, waitChannel and
spawnWarner. -/
inductive Chan where
  | ending
  | wait
  | spawn
deriving DecidableEq, Repr

/-- The slice `reportChannels := []chan interface{}{endingChannel,
waitChannel, spawnWarner}` built by ExecTask
(src/worker/worker.go line 184). -/
def execTaskReportChannels : List Chan :=
  [Chan.ending, Chan.wait, Chan.spawn]

/-- The channel ExecTask passes to Execute as its state-output argument
(src/worker/worker.go line 189): the spawnWarner channel. -/
def executeStateArg : Chan := Chan.spawn

/-- The observable actions of the report routine: receiving from a
channel, probing Track, transmitting a report with a given progress
value, and signalling a channel. -/
inductive RAction where
  | recv (c : Chan)
  | trackProbe
  | report (progress : Nat)
  | signal (c : Chan)
deriving DecidableEq, Repr

/-- One iteration of the reportTask select loop, as decided by the
environment: either the ending channel is ready (doneSignal), or the
default branch runs with the given Track outcome and with
intervalElapsed telling whether the report interval has elapsed (the
wall-clock comparison of src/worker/worker.go line 225). -/
inductive LoopEv where
  | doneSignal
  | tick (trackRes : Except String Nat) (intervalElapsed : Bool)

/-- How a run of the report loop ended: still looping when the schedule
is exhausted, returned through the done branch, or panicked in the
progress division. -/
inductive RunEnd where
  | stillLooping
  | returned
  | panicked
deriving DecidableEq, Repr

/-- The loop of reportTask (src/worker/worker.go lines 204-234) as a
trace of actions driven by a schedule of loop events.  The done branch
receives from channels[0], sets progress to 100, transmits the final
report, signals channels[1] and returns.  The default branch probes
Track, overwrites the progress (a panic ends the trace), and transmits
a periodic report only when the interval has elapsed. -/
def reportLoop (doneCh waitCh : Chan) (numCommands : Nat) :
    List LoopEv → List RAction × RunEnd
  | [] => ([], RunEnd.stillLooping)
  | LoopEv.doneSignal :: _ =>
    ([RAction.recv doneCh, RAction.report 100, RAction.signal waitCh], RunEnd.returned)
  | LoopEv.tick trackRes intervalElapsed :: rest =>
    match progressUpdate (trackValue trackRes) numCommands with
    | none => ([RAction.trackProbe], RunEnd.panicked)
    | some p =>
      if intervalElapsed then
        (RAction.trackProbe :: RAction.report p ::
          (reportLoop doneCh waitCh numCommands rest).1,
         (reportLoop doneCh waitCh numCommands rest).2)
      else
        (RAction.trackProbe :: (reportLoop doneCh waitCh numCommands rest).1,
         (reportLoop doneCh waitCh numCommands rest).2)

/-- The full trace of reportTask (src/worker/worker.go lines 199-235):
before anything else the routine blocks receiving on channels[2] (the
spawn warner); only then does the select loop start.  A channel slice
shorter than three entries would panic on the index and produce no
action. -/
def reportTaskTrace (channels : List Chan) (numCommands : Nat)
    (sched : List LoopEv) : List RAction × RunEnd :=
  match channels with
  | c0 :: c1 :: c2 :: _ =>
    (RAction.recv c2 :: (reportLoop c0 c1 numCommands sched).1,
     (reportLoop c0 c1 numCommands sched).2)
  | _ => ([], RunEnd.panicked)

/-- The tail of ExecTask after a nil Execute error
(src/worker/worker.go lines 195-196): signal the ending channel, then
block receiving on the wait channel; ExecTask returns immediately after
that receive. -/
def execTaskFinishActions : List RAction :=
  [RAction.signal Chan.ending, RAction.recv Chan.wait]

/-- reportReq from src/worker/worker.go lines 237-248.  putResult is the
outcome of utils.Put: an error value or the HTTP status code of the
response.  The result is the log line produced (some none when nothing
is logged); none models the runtime panic of `err.Error()` evaluated
while err is nil, which happens exactly when the call succeeds with a
non-200 status. -/
def reportReq (putResult : Except String Nat) : Option (Option String) :=
  match putResult with
  | Except.error e => some (some ("Error on reporting task: " ++ e))
  | Except.ok statusCode =>
    if statusCode ≠ 200 then none
    else some none

/-- A concrete running task with two commands, used as a test vehicle;
its shape follows the default task built in src/main.go. -/
def twoCmdTask : Task :=
  { Commands := ["echo a", "echo b"], ReportInterval := 5,
    State := TaskState.TaskRunning, Progress := 0,
    DockerImage := "library/ubuntu", Id := "test" }

/-- A concrete running task with an empty command list (the degenerate
task of the specification). -/
def emptyCmdTask : Task :=
  { Commands := [], ReportInterval := 5,
    State := TaskState.TaskRunning, Progress := 100,
    DockerImage := "library/ubuntu", Id := "test" }

/-- A concrete running task with five commands whose progress has
already reached 40 (two of five commands done). -/
def fiveCmdTask : Task :=
  { Commands := ["c1", "c2", "c3", "c4", "c5"], ReportInterval := 5,
    State := TaskState.TaskRunning, Progress := 40,
    DockerImage := "library/ubuntu", Id := "test" }

/-! ## Theorems -/

/-- C1 (counterexample): the engine does not clamp the progress to 100.
With two commands and a Track count of 3 (an exit-code file holding
three parsable entries) the assignment at src/worker/worker.go line 220
stores 150, not min(100, floor(3 * 100 / 2)) = 100; the claimed formula
and the claimed [0,100] bound both fail at this input. -/
theorem c1_progress_clamp_counterexample :
    Track (Except.ok ("0\r\n0\r\n0".toList)) = (3, none) ∧
    (trackedProgressUpdate twoCmdTask (Except.ok 3)).map Task.Progress = some 150 ∧
    ¬ ((trackedProgressUpdate twoCmdTask (Except.ok 3)).map Task.Progress
        = some (min 100 (3 * 100 / 2))) := by
  refine ⟨?_, by decide, by decide⟩
  decide

/-- C1 (amended): on a report tick with a non-empty command list the
engine sets the progress to floor(exec_count * 100 / commands-count)
with no clamping; whenever the Track count does not exceed the number
of commands this value coincides with min(100, floor(exec_count * 100 /
commands-count)) and is bounded by 100, and the value is monotone in
the Track count, so error-free report sequences driven by a growing
exit-code file are non-decreasing. -/
theorem c1_progress_formula_amended (task : Task) (execCount e1 e2 : Nat)
    (hn : task.Commands.length ≠ 0)
    (he : execCount ≤ task.Commands.length)
    (h12 : e1 ≤ e2) :
    (trackedProgressUpdate task (Except.ok execCount)).map Task.Progress
      = some (min 100 (execCount * 100 / task.Commands.length)) ∧
    execCount * 100 / task.Commands.length ≤ 100 ∧
    e1 * 100 / task.Commands.length ≤ e2 * 100 / task.Commands.length := by
  have hpos : 0 < task.Commands.length := Nat.pos_of_ne_zero hn
  have hb : execCount * 100 / task.Commands.length ≤ 100 := by
    have hle : execCount * 100 ≤ task.Commands.length * 100 :=
      Nat.mul_le_mul_right 100 he
    have h2 : execCount * 100 / task.Commands.length
        ≤ task.Commands.length * 100 / task.Commands.length :=
      Nat.div_le_div_right hle
    have h3 : task.Commands.length * 100 / task.Commands.length = 100 :=
      Nat.mul_div_cancel_left 100 hpos
    omega
  refine ⟨?_, hb, Nat.div_le_div_right (Nat.mul_le_mul_right 100 h12)⟩
  have hmin : min 100 (execCount * 100 / task.Commands.length)
      = execCount * 100 / task.Commands.length := min_eq_right hb
  simp [trackedProgressUpdate, progressUpdate, trackValue, hn, hmin]

/-- C1 (witness for the amended theorem): at the two-command task with
Track count 1 the stored progress is 50 = min(100, 50). -/
theorem c1_progress_formula_amended_witness :
    (trackedProgressUpdate twoCmdTask (Except.ok 1)).map Task.Progress
      = some (min 100 (1 * 100 / twoCmdTask.Commands.length)) ∧
    1 * 100 / twoCmdTask.Commands.length ≤ 100 ∧
    0 * 100 / twoCmdTask.Commands.length ≤ 2 * 100 / twoCmdTask.Commands.length :=
  c1_progress_formula_amended twoCmdTask 1 0 2 (by decide) (by decide) (by decide)

/-- C2 (code bug): on a task with an empty command list the engine does
not treat the progress as 100; the default branch of reportTask
evaluates `executedCmdsLen * 100 / len(task.Commands)` with divisor
zero, a Go runtime panic (modelled as none) that crashes the agent.
The divisor-zero division is evaluated, contradicting the claim. -/
theorem c2_empty_commands_division_panics :
    trackedProgressUpdate emptyCmdTask (Except.ok 0) = none ∧
    progressUpdate 0 0 = none := by
  decide

/-- C3 (counterexample): on a tick where Track fails, the previous
progress value is not retained.  With five commands and progress
already at 40, a Track error makes the engine store
0 * 100 / 5 = 0, so the report of that tick carries 0, not 40. -/
theorem c3_error_tick_counterexample :
    (trackedProgressUpdate fiveCmdTask (Except.error "read failed")).map Task.Progress
      = some 0 ∧
    ¬ ((trackedProgressUpdate fiveCmdTask (Except.error "read failed")).map Task.Progress
        = some fiveCmdTask.Progress) := by
  decide

/-- C3 (amended): on a tick where Track returns an error the engine
logs the error (not fatal: the routine keeps running) and overwrites
the progress with 0 * 100 / commands-count = 0, because Track returns
the pair (0, err); on the very first tick the previous value is also 0,
so that tick reports progress 0 and subsequent ticks resume normal
probing. -/
theorem c3_error_tick_resets_to_zero (task : Task) (e : String)
    (hn : task.Commands.length ≠ 0) :
    (trackedProgressUpdate task (Except.error e)).map Task.Progress = some 0 := by
  simp [trackedProgressUpdate, progressUpdate, trackValue, hn]

/-- C3 (witness for the amended theorem): the five-command task with a
failing Track probe reports progress 0. -/
theorem c3_error_tick_resets_to_zero_witness :
    (trackedProgressUpdate fiveCmdTask (Except.error "boom")).map Task.Progress
      = some 0 :=
  c3_error_tick_resets_to_zero fiveCmdTask "boom" (by decide)

/-- C6 (counterexample): when Execute reports failure by returning a
non-nil error, ExecTask (src/worker/worker.go lines 191-193) passes the
error to log.Fatal, terminating the whole agent process instead of
failing only the task: the outcome is fatalExit, not the completed
outcome in which control returns for the next task. -/
theorem c6_executor_failure_counterexample :
    execTaskAfterExecute (some "container driver call failed")
      = ExecTaskOutcome.fatalExit "container driver call failed" ∧
    ExecTaskOutcome.fatalExit "container driver call failed"
      ≠ ExecTaskOutcome.completed := by
  decide

/-- C6 (amended): a non-nil error returned by Execute makes ExecTask
call log.Fatal with the error message, terminating the agent process;
no Failed state is stored and no final report is sent on that path.
Only on a nil error does ExecTask signal the reporter and return after
the final report. -/
theorem c6_executor_failure_is_fatal :
    (∀ msg : String, execTaskAfterExecute (some msg) = ExecTaskOutcome.fatalExit msg) ∧
    execTaskAfterExecute none = ExecTaskOutcome.completed :=
  ⟨fun _ => rfl, rfl⟩

/-- C7 (code bug): when the report PUT succeeds at the transport level
but the dispatcher answers a status other than 200, reportReq
(src/worker/worker.go line 246) evaluates `err.Error()` while err is
nil: a nil pointer dereference panic (modelled as none) that crashes
the agent instead of logging and continuing.  A transport error or a
200 response behaves as the claim says. -/
theorem c7_non200_status_nil_dereference :
    reportReq (Except.ok 500) = none ∧
    reportReq (Except.ok 200) = some none ∧
    reportReq (Except.error "connection refused")
      = some (some ("Error on reporting task: " ++ "connection refused")) := by
  refine ⟨rfl, rfl, rfl⟩

/-- C4: per call, Execute emits exactly one terminal state on its output
channel, whatever the outcomes of the container-driver calls: the
emitted list has length one, its element is TaskFinished or TaskFailed,
and it is TaskFinished exactly when init, send and run all succeed. -/
theorem c4_execute_single_terminal_state (d : ContainerDriver) :
    (executorExecute d).length = 1 ∧
    (executorExecute d = [TaskState.TaskFinished] ∨
      executorExecute d = [TaskState.TaskFailed]) ∧
    (executorExecute d = [TaskState.TaskFinished] ↔
      (∃ cid, executorInit d = Except.ok cid) ∧
      executorSend d = Except.ok () ∧
      executorRun d = Except.ok ()) := by
  cases hi : executorInit d with
  | error e => simp [executorExecute, hi]
  | ok cid =>
    cases hs : executorSend d with
    | error e2 => simp [executorExecute, hi, hs]
    | ok u =>
      cases u
      cases hr : executorRun d with
      | error e3 => simp [executorExecute, hi, hs, hr]
      | ok u2 =>
        cases u2
        simp [executorExecute, hi, hs, hr]

/-- The length of the parsed exit-code list equals the number of
segments accepted by Atoi. -/
theorem toIntArray_length (strs : List (List Char)) :
    (toIntArray strs).length
      = strs.countP (fun seg => (atoiChars seg).isSome) := by
  induction strs with
  | nil => rfl
  | cons s rest ih =>
    cases h : atoiChars s with
    | none => simp [toIntArray, h, List.countP_cons, ih]
    | some x => simp [toIntArray, h, List.countP_cons, ih]

/-- C5: for every content of the exit-code file, Track returns the
number of CRLF-separated segments of the trimmed content that parse as
integers (unparseable segments silently skipped) together with no
error, and for every failing read it returns the pair (0, err). -/
theorem c5_track_counts_parsed_segments :
    (∀ content : List Char,
      Track (Except.ok content) = (trackCountSpec content, none)) ∧
    (∀ e : String, Track (Except.error e) = (0, some e)) := by
  constructor
  · intro content
    simp [Track, getExitCodes, trackCountSpec, toIntArray_length]
  · intro e
    rfl

/-- C8: HandleJoinResponse updates the worker record exactly on a 201
response whose parsed body carries the arrebol-worker-token and whose
parsed token claims carry QueueId: then the token is stored and the
QueueId field becomes the formatted claim value; on non-201 status,
unparseable body, missing token, token-parse failure or missing QueueId
claim the join is fatal (modelled none) and the record is untouched. -/
theorem c8_handle_join_response (statusCode : Nat)
    (parsedBody : Option (List (String × String)))
    (ptf : String → Option (List (String × ClaimVal))) (w : Worker) :
    (∀ body token claims qv,
      body.lookup "arrebol-worker-token" = some token →
      ptf token = some claims →
      claims.lookup "QueueId" = some qv →
      HandleJoinResponse 201 (some body) ptf w
        = some { w with Token := token, QueueId := goFormat qv }) ∧
    (statusCode ≠ 201 →
      HandleJoinResponse statusCode parsedBody ptf w = none) ∧
    (HandleJoinResponse statusCode none ptf w = none) ∧
    (∀ body, body.lookup "arrebol-worker-token" = none →
      HandleJoinResponse statusCode (some body) ptf w = none) ∧
    (∀ body token,
      body.lookup "arrebol-worker-token" = some token →
      ptf token = none →
      HandleJoinResponse statusCode (some body) ptf w = none) ∧
    (∀ body token claims,
      body.lookup "arrebol-worker-token" = some token →
      ptf token = some claims →
      claims.lookup "QueueId" = none →
      HandleJoinResponse statusCode (some body) ptf w = none) := by
  refine ⟨?_, ?_, ?_, ?_, ?_, ?_⟩
  · intro body token claims qv h1 h2 h3
    simp [HandleJoinResponse, h1, h2, h3]
  · intro hs
    simp [HandleJoinResponse, hs]
  · by_cases hs : statusCode = 201 <;> simp [HandleJoinResponse, hs]
  · intro body h1
    by_cases hs : statusCode = 201 <;> simp [HandleJoinResponse, hs, h1]
  · intro body token h1 h2
    by_cases hs : statusCode = 201 <;> simp [HandleJoinResponse, hs, h1, h2]
  · intro body token claims h1 h2 h3
    by_cases hs : statusCode = 201 <;> simp [HandleJoinResponse, hs, h1, h2, h3]

/-- C8 (witness): a 201 response whose body holds the token "tok" and
whose token claims hold QueueId = 7 makes the worker store the token
and the queue id "7". -/
theorem c8_handle_join_response_witness :
    HandleJoinResponse 201 (some [("arrebol-worker-token", "tok")])
      (fun _ => some [("QueueId", ClaimVal.num 7)])
      { Vcpu := 1, Ram := 3, Token := "", Id := "1023", QueueId := "" }
      = some { Vcpu := 1, Ram := 3, Token := "tok", Id := "1023",
               QueueId := goFormat (ClaimVal.num 7) } :=
  (c8_handle_join_response 201 (some [("arrebol-worker-token", "tok")])
      (fun _ => some [("QueueId", ClaimVal.num 7)])
      { Vcpu := 1, Ram := 3, Token := "", Id := "1023", QueueId := "" }).1
    [("arrebol-worker-token", "tok")] "tok" [("QueueId", ClaimVal.num 7)]
    (ClaimVal.num 7) (by decide) rfl (by decide)

/-- Shape of a report-loop trace that returned through the done branch:
the last two actions are the terminal report (progress 100) and the
signal on the wait channel, and no earlier action signals the wait
channel. -/
theorem reportLoop_returned_shape (doneCh waitCh : Chan) (n : Nat)
    (sched : List LoopEv)
    (h : (reportLoop doneCh waitCh n sched).2 = RunEnd.returned) :
    ∃ pre, (reportLoop doneCh waitCh n sched).1
        = pre ++ [RAction.report 100, RAction.signal waitCh] ∧
      ∀ a ∈ pre, a ≠ RAction.signal waitCh := by
  induction sched with
  | nil => simp [reportLoop] at h
  | cons ev rest ih =>
    cases ev with
    | doneSignal =>
      refine ⟨[RAction.recv doneCh], rfl, ?_⟩
      intro a ha
      simp at ha
      subst ha
      simp
    | tick trackRes intervalElapsed =>
      cases hp : progressUpdate (trackValue trackRes) n with
      | none => simp [reportLoop, hp] at h
      | some p =>
        simp only [reportLoop, hp] at h ⊢
        cases intervalElapsed with
        | false =>
          simp only [if_neg Bool.false_ne_true] at h ⊢
          obtain ⟨pre, hpre, hfree⟩ := ih h
          refine ⟨RAction.trackProbe :: pre, by simp [hpre], ?_⟩
          intro a ha
          rcases List.mem_cons.mp ha with h0 | h0
          · subst h0; simp
          · exact hfree a h0
        | true =>
          simp only [if_pos rfl] at h ⊢
          obtain ⟨pre, hpre, hfree⟩ := ih h
          refine ⟨RAction.trackProbe :: RAction.report p :: pre, by simp [hpre], ?_⟩
          intro a ha
          rcases List.mem_cons.mp ha with h0 | h0
          · subst h0; simp
          · rcases List.mem_cons.mp h0 with h1 | h1
            · subst h1; simp
            · exact hfree a h1

/-- C9: whenever the report routine, run with the channels ExecTask
builds, exits through its done branch, its trace ends with the terminal
report (progress 100) immediately followed by the signal on the wait
channel, and no earlier action signals the wait channel.  Hence the
terminal report is sent strictly after every periodic report, nothing
is sent after it, and ExecTask — whose last step, recorded in
execTaskFinishActions, is the receive on the wait channel — returns
only after that terminal report has been transmitted. -/
theorem c9_terminal_report_last (numCommands : Nat) (sched : List LoopEv)
    (h : (reportTaskTrace execTaskReportChannels numCommands sched).2
        = RunEnd.returned) :
    (∃ pre, (reportTaskTrace execTaskReportChannels numCommands sched).1
        = pre ++ [RAction.report 100, RAction.signal Chan.wait] ∧
      ∀ a ∈ pre, a ≠ RAction.signal Chan.wait) ∧
    execTaskFinishActions.getLast? = some (RAction.recv Chan.wait) := by
  refine ⟨?_, rfl⟩
  simp only [reportTaskTrace, execTaskReportChannels] at h ⊢
  obtain ⟨pre, hpre, hfree⟩ := reportLoop_returned_shape Chan.ending Chan.wait
    numCommands sched h
  refine ⟨RAction.recv Chan.spawn :: pre, by simp [hpre], ?_⟩
  intro a ha
  rcases List.mem_cons.mp ha with h0 | h0
  · subst h0; simp
  · exact hfree a h0

/-- C9 (witness): with the schedule in which the done branch fires at
once, the trace is the receive on the spawn warner, the receive on the
ending channel, the terminal report, and the wait signal. -/
theorem c9_terminal_report_last_witness :
    (∃ pre, (reportTaskTrace execTaskReportChannels 3 [LoopEv.doneSignal]).1
        = pre ++ [RAction.report 100, RAction.signal Chan.wait] ∧
      ∀ a ∈ pre, a ≠ RAction.signal Chan.wait) ∧
    execTaskFinishActions.getLast? = some (RAction.recv Chan.wait) :=
  c9_terminal_report_last 3 [LoopEv.doneSignal] (by decide)

/-- C10: the first action of the report routine is the receive on
channels[2]; no Track probe and no report transmission occupies
position zero of the trace, so both happen only after that receive; and
channels[2] of the slice ExecTask builds is exactly the spawn-warner
channel ExecTask passes to Execute as its state-output argument. -/
theorem c10_reporter_gated_on_spawn_warner (numCommands : Nat)
    (sched : List LoopEv) :
    (reportTaskTrace execTaskReportChannels numCommands sched).1.head?
      = some (RAction.recv executeStateArg) ∧
    execTaskReportChannels.get? 2 = some executeStateArg ∧
    (∀ i, (reportTaskTrace execTaskReportChannels numCommands sched).1.get? i
        = some RAction.trackProbe → 0 < i) ∧
    (∀ i p, (reportTaskTrace execTaskReportChannels numCommands sched).1.get? i
        = some (RAction.report p) → 0 < i) := by
  refine ⟨rfl, rfl, ?_, ?_⟩
  · intro i hi
    cases i with
    | zero => simp [reportTaskTrace, execTaskReportChannels] at hi
    | succ k => exact Nat.succ_pos k
  · intro i p hi
    cases i with
    | zero => simp [reportTaskTrace, execTaskReportChannels] at hi
    | succ k => exact Nat.succ_pos k

/-- C10 (witness): on a schedule with one elapsed probing tick, position
one of the trace is the Track probe, and the theorem places it after
the gating receive. -/
theorem c10_reporter_gated_on_spawn_warner_witness :
    (reportTaskTrace execTaskReportChannels 2
        [LoopEv.tick (Except.ok 1) true]).1.get? 1
      = some RAction.trackProbe ∧ 0 < 1 :=
  ⟨by decide,
   (c10_reporter_gated_on_spawn_warner 2 [LoopEv.tick (Except.ok 1) true]).2.2.1
     1 (by decide)⟩

end ArrebolWorker
